import Mathlib

/-!
Shallow embedding of the `scarf` Go package (scarf-sh/scarf-go,
`scarf/event_logger.go`): a small telemetry client that encodes a property
mapping into URL query parameters and POSTs it to a configured endpoint,
respecting environment-driven opt-out signals.

Machine integers (`time.Duration`, HTTP status codes) are modelled as `Int`
(nanoseconds for durations); none of the verified claims involve overflow.
The ambient effects (environment, URL parsing, request building, the HTTP
round trip, stderr diagnostics) are made explicit: the environment is a
total function `String → String` (as `os.Getenv`, empty string for unset),
the network is an oracle record `World`, and diagnostic lines become an
explicit list of `Diag` events in the call result.
-/

set_option maxHeartbeats 1000000

namespace Scarf

/-- Environment: `os.Getenv` semantics, the empty string means unset. -/
abbrev Env : Type := String → String

/-- Whitespace as `strings.TrimSpace` recognizes it, restricted to the
ASCII space characters (Go additionally trims the rarer Unicode space
code points, which no claim involves). -/
def goIsSpace (c : Char) : Bool :=
  c = ' ' || c = '\t' || c = '\n' || c = '\x0b' || c = '\x0c' || c = '\r'

/-- Embeds `strings.TrimSpace`: remove leading and trailing whitespace. -/
def goTrimSpace (s : String) : String :=
  String.mk (((s.data.dropWhile goIsSpace).reverse.dropWhile goIsSpace).reverse)

/-- ASCII lowercasing of one character, as `strings.ToLower` acts on the
ASCII range (the full Unicode case mapping is irrelevant to the four
recognized literals). -/
def goLowerChar (c : Char) : Char :=
  if 'A' ≤ c ∧ c ≤ 'Z' then Char.ofNat (c.toNat + 32) else c

/-- Embeds `strings.ToLower` on the ASCII range. -/
def goToLower (s : String) : String :=
  String.mk (s.data.map goLowerChar)

/-- Embeds `envBool` from `event_logger.go`: trim the variable's value,
treat empty as false, otherwise lowercase and compare against the four
recognized true-like literals. -/
def envBool (env : Env) (key : String) : Bool :=
  if goTrimSpace (env key) = "" then false
  else
    (goToLower (goTrimSpace (env key)) == "1"
      || goToLower (goTrimSpace (env key)) == "true"
      || goToLower (goTrimSpace (env key)) == "yes"
      || goToLower (goTrimSpace (env key)) == "on")

/-- time.Duration value of `defaultTimeout = 3 * time.Second`, in nanoseconds. -/
def defaultTimeout : Int := 3 * 1000000000

/-- Embeds the `http.Client` as far as the package touches it: its `Timeout`
field. The Go code copies the client per call to override this field. -/
structure HTTPClient where
  timeout : Int
  deriving DecidableEq

/-- Embeds the `ScarfEventLogger` struct (the `*log.Logger` field is the
stderr sink, modelled by the explicit diagnostic list in `CallResult`). -/
structure ScarfEventLogger where
  endpointURL : String
  defaultTimeout : Int
  disabled : Bool
  verbose : Bool
  httpClient : HTTPClient
  deriving DecidableEq

/-- Embeds `NewScarfEventLogger`: the variadic `timeout ...time.Duration`
argument becomes a list; the first element is used only when strictly
positive, otherwise the fixed default applies. Disabled and verbose flags
are derived from the environment once, here. -/
def NewScarfEventLogger (env : Env) (endpointURL : String)
    (timeout : List Int) : ScarfEventLogger :=
  let t := match timeout with
    | t0 :: _ => if t0 > 0 then t0 else defaultTimeout
    | [] => defaultTimeout
  let verbose := envBool env "SCARF_VERBOSE"
  let disabled := envBool env "DO_NOT_TRACK" || envBool env "SCARF_NO_ANALYTICS"
  { endpointURL := endpointURL
    defaultTimeout := t
    disabled := disabled
    verbose := verbose
    httpClient := { timeout := t } }

/-- Embeds `Enabled`. -/
def Enabled (s : ScarfEventLogger) : Bool := !s.disabled

/-- Embeds a Go `any` property value as the `stringifyParam` type switch
sees it: `str` is a value of exact dynamic type `string`; `stringer` is a
non-string value implementing `fmt.Stringer`, carrying the result of its
`String()` method; `other` is every remaining value, carrying the result of
`json.Marshal` (`none` when marshalling returns an error) together with its
`fmt.Sprint` rendering used as the fallback. -/
inductive GoValue where
  | str : String → GoValue
  | stringer : String → GoValue
  | other : Option String → String → GoValue
  deriving DecidableEq

/-- Embeds `stringifyParam`: strings and stringers verbatim; otherwise the
JSON form, with surrounding double quotes stripped when the form is a quoted
scalar (Go checks byte length and first/last byte; for valid UTF-8 JSON
output with ASCII quote delimiters this coincides with the character-level
check used here); `fmt.Sprint` fallback when marshalling failed. -/
def stringifyParam : GoValue → String
  | .str s => s
  | .stringer r => r
  | .other (some s) _ =>
      if 2 ≤ s.length ∧ s.front = '"' ∧ s.back = '"'
      then (s.drop 1).dropRight 1
      else s
  | .other none sp => sp

/-- Embeds `url.Values` as it is used here: an association list of query
parameters (key, single value). -/
abbrev Values : Type := List (String × String)

/-- Embeds `url.Values.Set`: replace any existing values for the key with
the single given value. -/
def Values.set (q : Values) (key value : String) : Values :=
  q.filter (fun p => p.1 != key) ++ [(key, value)]

/-- Embeds `url.Values.Get`: the first value associated to the key. -/
def Values.get (q : Values) (key : String) : Option String :=
  (q.find? (fun p => p.1 == key)).map Prod.snd

/-- Embeds the parsed endpoint `*url.URL` as far as the package touches it:
`pre` is everything outside the query string (scheme, host, path), `query`
is the parsed `RawQuery`. -/
structure URLParts where
  pre : String
  query : Values
  deriving DecidableEq

/-- Embeds `*http.Response` as far as the package touches it. -/
structure Response where
  statusCode : Int
  status : String
  deriving DecidableEq

/-- Oracle for the ambient effects of one call: `url.Parse` on the endpoint,
`http.NewRequest` construction, and the HTTP round trip `client.Do`
(taking the effective per-call timeout). -/
structure World where
  parseURL : String → Except String URLParts
  buildRequest : URLParts → Except String Unit
  send : URLParts → Int → Except String Response

/-- Diagnostic lines written to the stderr-bound `log.Logger`, one
constructor per `s.logger.Print*` call site in `logEventInternal`,
carrying the data that call site formats. -/
inductive Diag where
  | disabledMsg : Diag
  | noEndpointMsg : Diag
  | invalidEndpointMsg : String → Diag
  | payloadMsg : Values → Diag
  | buildFailedMsg : String → Diag
  | sendingMsg : URLParts → Int → Diag
  | requestFailedMsg : String → Diag
  | successMsg : String → Diag
  | nonSuccessMsg : String → Diag
  deriving DecidableEq

/-- Embeds the possible `error` results of `logEventInternal`:
`disabled` is `ErrDisabled`; `success` is the `nil` return; the remaining
constructors carry the wrapped cause or status text. -/
inductive Outcome where
  | disabled : Outcome
  | missingEndpoint : Outcome
  | invalidEndpoint : String → Outcome
  | requestBuildFailed : String → Outcome
  | requestFailed : String → Outcome
  | nonSuccessStatus : String → Outcome
  | success : Outcome
  deriving DecidableEq

/-- Observable result of one call: the returned outcome, the diagnostic
lines written, the dispatched request (final URL and effective timeout,
`none` when `client.Do` was never reached), and the logger state after the
call (the Go method never writes through its receiver). -/
structure CallResult where
  outcome : Outcome
  diag : List Diag
  request : Option (URLParts × Int)
  post : ScarfEventLogger
  deriving DecidableEq

/-- Embeds the query-building loop of `logEventInternal`: `q := u.Query()`,
then `q.Set(k, stringifyParam(v))` for each property, then the query is
written back. The base URL's other components are untouched. -/
def mergeURL (u : URLParts) (props : List (String × GoValue)) : URLParts :=
  { u with
    query := props.foldl (fun q p => Values.set q p.1 (stringifyParam p.2)) u.query }

/-- Embeds `logEventInternal`, the core control flow: disabled check,
endpoint presence check, URL parse, query merge, request build, per-call
client copy with overridden timeout, dispatch, status classification. -/
def logEventInternal (s : ScarfEventLogger) (w : World)
    (properties : Option (List (String × GoValue))) (timeout : Int) : CallResult :=
  if s.disabled then
    { outcome := .disabled
      diag := if s.verbose then [.disabledMsg] else []
      request := none
      post := s }
  else if goTrimSpace s.endpointURL = "" then
    { outcome := .missingEndpoint
      diag := if s.verbose then [.noEndpointMsg] else []
      request := none
      post := s }
  else
    match w.parseURL s.endpointURL with
    | .error e =>
      { outcome := .invalidEndpoint e
        diag := if s.verbose then [.invalidEndpointMsg e] else []
        request := none
        post := s }
    | .ok u =>
      let u2 := mergeURL u (properties.getD [])
      let d1 : List Diag := if s.verbose then [.payloadMsg u2.query] else []
      match w.buildRequest u2 with
      | .error e =>
        { outcome := .requestBuildFailed e
          diag := d1 ++ (if s.verbose then [.buildFailedMsg e] else [])
          request := none
          post := s }
      | .ok _ =>
        let client : HTTPClient := { s.httpClient with timeout := timeout }
        let d2 : List Diag := d1 ++ (if s.verbose then [.sendingMsg u2 client.timeout] else [])
        match w.send u2 client.timeout with
        | .error e =>
          { outcome := .requestFailed e
            diag := d2 ++ (if s.verbose then [.requestFailedMsg e] else [])
            request := some (u2, client.timeout)
            post := s }
        | .ok resp =>
          if 200 ≤ resp.statusCode ∧ resp.statusCode < 300 then
            { outcome := .success
              diag := d2 ++ (if s.verbose then [.successMsg resp.status] else [])
              request := some (u2, client.timeout)
              post := s }
          else
            { outcome := .nonSuccessStatus resp.status
              diag := d2 ++ (if s.verbose then [.nonSuccessMsg resp.status] else [])
              request := some (u2, client.timeout)
              post := s }

/-- Embeds `LogEvent`: use the logger's default timeout. -/
def LogEvent (s : ScarfEventLogger) (w : World)
    (properties : Option (List (String × GoValue))) : CallResult :=
  logEventInternal s w properties s.defaultTimeout

/-- Embeds `LogEventWithTimeout`: a non-positive override falls back to the
logger's default timeout for this call. -/
def LogEventWithTimeout (s : ScarfEventLogger) (w : World)
    (properties : Option (List (String × GoValue))) (timeout : Int) : CallResult :=
  logEventInternal s w properties (if timeout ≤ 0 then s.defaultTimeout else timeout)

/-- Spec-words predicate for the refinement comparison in claim C2: the
spec's matching rule, a case-insensitive match of the raw value against the
four recognized literals, with no whitespace trimming. -/
def specTrueLike (v : String) : Bool :=
  goToLower v == "1" || goToLower v == "true"
    || goToLower v == "yes" || goToLower v == "on"

/-- Spec-words predicate for the amended claim C2: the spec's matching rule
applied after trimming surrounding whitespace. -/
def trueLikeTrimmed (v : String) : Bool :=
  specTrueLike (goTrimSpace v)

/-- Test fixture: every environment variable unset. -/
def envEmpty : Env := fun _ => ""

/-- Test fixture: DO_NOT_TRACK set to the literal "1". -/
def envDNT : Env := fun k => if k == "DO_NOT_TRACK" then "1" else ""

/-- Test fixture: DO_NOT_TRACK set to a true-like literal padded with
whitespace. -/
def envPadded : Env := fun k => if k == "DO_NOT_TRACK" then " TRUE " else ""

/-- Test fixture: DO_NOT_TRACK set to whitespace only. -/
def envSpaces : Env := fun k => if k == "DO_NOT_TRACK" then "   " else ""

/-- Test fixture: a parsed base URL with no query. -/
def cU : URLParts := { pre := "https://example.com", query := [] }

/-- Test fixture: a world where everything succeeds with a 200 response. -/
def okWorld : World :=
  { parseURL := fun _ => Except.ok cU
    buildRequest := fun _ => Except.ok ()
    send := fun _ _ => Except.ok { statusCode := 200, status := "200 OK" } }

/-- Test fixture: a 500 response. -/
def resp500 : Response := { statusCode := 500, status := "500 Internal Server Error" }

/-- Test fixture: a world whose server replies 500 to every request. -/
def world500 : World :=
  { parseURL := fun _ => Except.ok cU
    buildRequest := fun _ => Except.ok ()
    send := fun _ _ => Except.ok resp500 }

/-- Test fixture: an enabled logger with a valid endpoint. -/
def cs : ScarfEventLogger := NewScarfEventLogger envEmpty "https://example.com" []

/-- Test fixture: an enabled logger whose endpoint is empty. -/
def csEmpty : ScarfEventLogger := NewScarfEventLogger envEmpty "" []

/-- Test fixture: the request expected from `cs` under `okWorld` with
timeout 7. -/
def cPair : URLParts × Int := (cU, 7)

/-- Test fixture: a base URL carrying its own path and query parameters. -/
def u0 : URLParts :=
  { pre := "https://scarf.example/p", query := [("a", "old"), ("keep", "base")] }

/-- Test fixture: properties colliding with one base query parameter. -/
def props0 : List (String × GoValue) :=
  [("a", GoValue.str "new"), ("b", GoValue.other (some "42") "42")]

/-! Helper lemmas: one projection lemma per branch of `logEventInternal`. -/

theorem lei_disabled (s : ScarfEventLogger) (w : World)
    (props : Option (List (String × GoValue))) (t : Int)
    (hd : s.disabled = true) :
    (logEventInternal s w props t).outcome = Outcome.disabled
    ∧ (logEventInternal s w props t).request = none
    ∧ (logEventInternal s w props t).post = s := by
  refine ⟨?_, ?_, ?_⟩ <;> simp [logEventInternal, hd]

theorem lei_missing (s : ScarfEventLogger) (w : World)
    (props : Option (List (String × GoValue))) (t : Int)
    (hd : s.disabled = false) (he : goTrimSpace s.endpointURL = "") :
    (logEventInternal s w props t).outcome = Outcome.missingEndpoint
    ∧ (logEventInternal s w props t).request = none
    ∧ (logEventInternal s w props t).post = s := by
  refine ⟨?_, ?_, ?_⟩ <;> simp [logEventInternal, hd, he]

theorem lei_parseError (s : ScarfEventLogger) (w : World)
    (props : Option (List (String × GoValue))) (t : Int) (e : String)
    (hd : s.disabled = false) (he : goTrimSpace s.endpointURL ≠ "")
    (hp : w.parseURL s.endpointURL = Except.error e) :
    (logEventInternal s w props t).outcome = Outcome.invalidEndpoint e
    ∧ (logEventInternal s w props t).request = none
    ∧ (logEventInternal s w props t).post = s := by
  refine ⟨?_, ?_, ?_⟩ <;> simp [logEventInternal, hd, he, hp]

theorem lei_buildError (s : ScarfEventLogger) (w : World)
    (props : Option (List (String × GoValue))) (t : Int) (u : URLParts) (e : String)
    (hd : s.disabled = false) (he : goTrimSpace s.endpointURL ≠ "")
    (hp : w.parseURL s.endpointURL = Except.ok u)
    (hb : w.buildRequest (mergeURL u (props.getD [])) = Except.error e) :
    (logEventInternal s w props t).outcome = Outcome.requestBuildFailed e
    ∧ (logEventInternal s w props t).request = none
    ∧ (logEventInternal s w props t).post = s := by
  refine ⟨?_, ?_, ?_⟩ <;> simp [logEventInternal, hd, he, hp, hb]

theorem lei_sendError (s : ScarfEventLogger) (w : World)
    (props : Option (List (String × GoValue))) (t : Int) (u : URLParts) (e : String)
    (hd : s.disabled = false) (he : goTrimSpace s.endpointURL ≠ "")
    (hp : w.parseURL s.endpointURL = Except.ok u)
    (hb : w.buildRequest (mergeURL u (props.getD [])) = Except.ok ())
    (hs : w.send (mergeURL u (props.getD [])) t = Except.error e) :
    (logEventInternal s w props t).outcome = Outcome.requestFailed e
    ∧ (logEventInternal s w props t).request = some (mergeURL u (props.getD []), t)
    ∧ (logEventInternal s w props t).post = s := by
  refine ⟨?_, ?_, ?_⟩ <;> simp [logEventInternal, hd, he, hp, hb, hs]

theorem lei_response (s : ScarfEventLogger) (w : World)
    (props : Option (List (String × GoValue))) (t : Int) (u : URLParts) (resp : Response)
    (hd : s.disabled = false) (he : goTrimSpace s.endpointURL ≠ "")
    (hp : w.parseURL s.endpointURL = Except.ok u)
    (hb : w.buildRequest (mergeURL u (props.getD [])) = Except.ok ())
    (hs : w.send (mergeURL u (props.getD [])) t = Except.ok resp) :
    (logEventInternal s w props t).outcome
      = (if 200 ≤ resp.statusCode ∧ resp.statusCode < 300
         then Outcome.success else Outcome.nonSuccessStatus resp.status)
    ∧ (logEventInternal s w props t).request = some (mergeURL u (props.getD []), t)
    ∧ (logEventInternal s w props t).post = s := by
  refine ⟨?_, ?_, ?_⟩ <;>
    by_cases hst : 200 ≤ resp.statusCode ∧ resp.statusCode < 300 <;>
      simp [logEventInternal, hd, he, hp, hb, hs, hst]

/-- Helper: no branch of `logEventInternal` writes to the logger. -/
theorem lei_post (s : ScarfEventLogger) (w : World)
    (props : Option (List (String × GoValue))) (t : Int) :
    (logEventInternal s w props t).post = s := by
  cases hd : s.disabled with
  | true => exact (lei_disabled s w props t hd).2.2
  | false =>
    by_cases he : goTrimSpace s.endpointURL = ""
    · exact (lei_missing s w props t hd he).2.2
    · cases hp : w.parseURL s.endpointURL with
      | error e => exact (lei_parseError s w props t e hd he hp).2.2
      | ok u =>
        cases hb : w.buildRequest (mergeURL u (props.getD [])) with
        | error e => exact (lei_buildError s w props t u e hd he hp hb).2.2
        | ok pu =>
          cases pu
          cases hs : w.send (mergeURL u (props.getD [])) t with
          | error e => exact (lei_sendError s w props t u e hd he hp hb hs).2.2
          | ok resp => exact (lei_response s w props t u resp hd he hp hb hs).2.2

/-- Helper: whenever a request is dispatched, it carries the per-call
effective timeout. -/
theorem lei_request_timeout (s : ScarfEventLogger) (w : World)
    (props : Option (List (String × GoValue))) (t : Int) (p : URLParts × Int)
    (hp : (logEventInternal s w props t).request = some p) : p.2 = t := by
  cases hd : s.disabled with
  | true =>
    rw [(lei_disabled s w props t hd).2.1] at hp
    exact Option.noConfusion hp
  | false =>
    by_cases he : goTrimSpace s.endpointURL = ""
    · rw [(lei_missing s w props t hd he).2.1] at hp
      exact Option.noConfusion hp
    · cases hpu : w.parseURL s.endpointURL with
      | error e =>
        rw [(lei_parseError s w props t e hd he hpu).2.1] at hp
        exact Option.noConfusion hp
      | ok u =>
        cases hb : w.buildRequest (mergeURL u (props.getD [])) with
        | error e =>
          rw [(lei_buildError s w props t u e hd he hpu hb).2.1] at hp
          exact Option.noConfusion hp
        | ok pu =>
          cases pu
          cases hs : w.send (mergeURL u (props.getD [])) t with
          | error e =>
            rw [(lei_sendError s w props t u e hd he hpu hb hs).2.1] at hp
            have h2 := Option.some.inj hp
            rw [← h2]
          | ok resp =>
            rw [(lei_response s w props t u resp hd he hpu hb hs).2.1] at hp
            have h2 := Option.some.inj hp
            rw [← h2]

/-- Helper: the returned outcome and the dispatched request do not depend
on the verbose flag. -/
theorem lei_verbose_invariant (s : ScarfEventLogger) (w : World)
    (props : Option (List (String × GoValue))) (t : Int) :
    (logEventInternal { s with verbose := true } w props t).outcome
      = (logEventInternal { s with verbose := false } w props t).outcome
    ∧ (logEventInternal { s with verbose := true } w props t).request
      = (logEventInternal { s with verbose := false } w props t).request := by
  rcases Bool.eq_false_or_eq_true s.disabled with hd | hd
  · have h1 := lei_disabled { s with verbose := true } w props t hd
    have h2 := lei_disabled { s with verbose := false } w props t hd
    exact ⟨h1.1.trans h2.1.symm, h1.2.1.trans h2.2.1.symm⟩
  · by_cases he : goTrimSpace s.endpointURL = ""
    · have h1 := lei_missing { s with verbose := true } w props t hd he
      have h2 := lei_missing { s with verbose := false } w props t hd he
      exact ⟨h1.1.trans h2.1.symm, h1.2.1.trans h2.2.1.symm⟩
    · cases hpu : w.parseURL s.endpointURL with
      | error e =>
        have h1 := lei_parseError { s with verbose := true } w props t e hd he hpu
        have h2 := lei_parseError { s with verbose := false } w props t e hd he hpu
        exact ⟨h1.1.trans h2.1.symm, h1.2.1.trans h2.2.1.symm⟩
      | ok u =>
        cases hb : w.buildRequest (mergeURL u (props.getD [])) with
        | error e =>
          have h1 := lei_buildError { s with verbose := true } w props t u e hd he hpu hb
          have h2 := lei_buildError { s with verbose := false } w props t u e hd he hpu hb
          exact ⟨h1.1.trans h2.1.symm, h1.2.1.trans h2.2.1.symm⟩
        | ok pu =>
          cases pu
          cases hs : w.send (mergeURL u (props.getD [])) t with
          | error e =>
            have h1 := lei_sendError { s with verbose := true } w props t u e hd he hpu hb hs
            have h2 := lei_sendError { s with verbose := false } w props t u e hd he hpu hb hs
            exact ⟨h1.1.trans h2.1.symm, h1.2.1.trans h2.2.1.symm⟩
          | ok resp =>
            have h1 := lei_response { s with verbose := true } w props t u resp hd he hpu hb hs
            have h2 := lei_response { s with verbose := false } w props t u resp hd he hpu hb hs
            exact ⟨h1.1.trans h2.1.symm, h1.2.1.trans h2.2.1.symm⟩

/-- Helper: `envBool` agrees with the trimmed spec predicate. -/
theorem envBool_eq_trim (env : Env) (key : String) :
    envBool env key = trueLikeTrimmed (env key) := by
  unfold envBool trueLikeTrimmed specTrueLike
  by_cases h : goTrimSpace (env key) = ""
  · rw [if_pos h, h]
    decide
  · rw [if_neg h]

/-- Helper: looking up the overwritten key in the set-then-append list. -/
theorem find_set_self (q : Values) (k v : String) :
    ((q.filter fun p => p.1 != k) ++ [(k, v)]).find? (fun p => p.1 == k)
      = some (k, v) := by
  induction q with
  | nil => simp [List.find?]
  | cons p q ih =>
    by_cases h : p.1 = k
    · simp only [List.filter_cons, h, bne_self_eq_false, if_false, Bool.false_eq_true]
      exact ih
    · have hb : (p.1 == k) = false := beq_eq_false_iff_ne.mpr h
      simp only [List.filter_cons, bne_iff_ne, ne_eq, h, not_false_eq_true, if_true,
        List.cons_append, List.find?_cons, hb]
      exact ih

/-- Helper: looking up a different key in the set-then-append list. -/
theorem find_set_ne (q : Values) (k v k' : String) (h : k' ≠ k) :
    ((q.filter fun p => p.1 != k) ++ [(k, v)]).find? (fun p => p.1 == k')
      = q.find? (fun p => p.1 == k') := by
  have hkk : ¬ (k = k') := fun hh => h hh.symm
  have hb : (k == k') = false := beq_eq_false_iff_ne.mpr hkk
  induction q with
  | nil =>
    simp [List.find?, hb]
  | cons p q ih =>
    by_cases hpk : p.1 = k
    · have hpk' : ¬ (p.1 = k') := by
        rw [hpk]; exact fun hh => h hh.symm
      simpa [List.filter_cons, List.find?_cons, hpk, hpk', hkk, h] using ih
    · by_cases hpk' : p.1 = k'
      · simp [List.filter_cons, List.find?_cons, hpk, hpk', hkk, h]
      · simpa [List.filter_cons, List.find?_cons, hpk, hpk', hkk, h] using ih

/-- Helper: `Values.Set` then `Get` at the same key returns the new value. -/
theorem values_get_set_self (q : Values) (k v : String) :
    Values.get (Values.set q k v) k = some v := by
  unfold Values.get Values.set
  rw [find_set_self]
  rfl

/-- Helper: `Values.Set` leaves every other key's lookup unchanged. -/
theorem values_get_set_ne (q : Values) (k v k' : String) (h : k' ≠ k) :
    Values.get (Values.set q k v) k' = Values.get q k' := by
  unfold Values.get Values.set
  rw [find_set_ne q k v k' h]

/-- Helper: keys untouched by the property fold keep their base lookup. -/
theorem mergeURL_get_absent (props : List (String × GoValue)) (k : String)
    (hk : k ∉ props.map Prod.fst) :
    ∀ u : URLParts, Values.get (mergeURL u props).query k = Values.get u.query k := by
  induction props with
  | nil => intro u; rfl
  | cons p rest ih =>
    intro u
    have hk1 : k ≠ p.1 := by
      intro h
      exact hk (by rw [List.map_cons, h]; exact List.mem_cons_self _ _)
    have hk2 : k ∉ rest.map Prod.fst := by
      intro h
      exact hk (by rw [List.map_cons]; exact List.mem_cons_of_mem _ h)
    calc Values.get (mergeURL u (p :: rest)).query k
        = Values.get
            (mergeURL { u with query := Values.set u.query p.1 (stringifyParam p.2) } rest).query
            k := rfl
      _ = Values.get (Values.set u.query p.1 (stringifyParam p.2)) k := ih hk2 _
      _ = Values.get u.query k := values_get_set_ne _ _ _ _ hk1

/-- Helper: a property key's final lookup is its stringified value, given
unique keys. -/
theorem mergeURL_get_mem (props : List (String × GoValue)) (k : String) (v : GoValue)
    (hnd : (props.map Prod.fst).Nodup) (hm : (k, v) ∈ props) :
    ∀ u : URLParts, Values.get (mergeURL u props).query k = some (stringifyParam v) := by
  induction props with
  | nil => cases hm
  | cons p rest ih =>
    intro u
    rcases List.mem_cons.mp hm with heq | hmem
    · rcases heq.symm with rfl
      have hk : k ∉ rest.map Prod.fst := by
        rw [List.map_cons] at hnd
        exact (List.nodup_cons.mp hnd).1
      calc Values.get (mergeURL u ((k, v) :: rest)).query k
          = Values.get
              (mergeURL { u with query := Values.set u.query k (stringifyParam v) } rest).query
              k := rfl
        _ = Values.get (Values.set u.query k (stringifyParam v)) k :=
            mergeURL_get_absent rest k hk _
        _ = some (stringifyParam v) := values_get_set_self _ _ _
    · have hnd' : (rest.map Prod.fst).Nodup := by
        rw [List.map_cons] at hnd
        exact (List.nodup_cons.mp hnd).2
      calc Values.get (mergeURL u (p :: rest)).query k
          = Values.get
              (mergeURL { u with query := Values.set u.query p.1 (stringifyParam p.2) } rest).query
              k := rfl
        _ = some (stringifyParam v) := ih hnd' hmem _

/-! Claim theorems. -/

/-- C1: whenever DO_NOT_TRACK or SCARF_NO_ANALYTICS carries a true-like
value at construction, the logger reports Enabled() = false, and every
subsequent LogEvent and LogEventWithTimeout call returns the Disabled
outcome (ErrDisabled) with no network request dispatched, for every world,
property mapping, endpoint, and timeout override. -/
theorem c1_optout_disables (env : Env) (endpoint : String) (tos : List Int)
    (h : envBool env "DO_NOT_TRACK" = true ∨ envBool env "SCARF_NO_ANALYTICS" = true) :
    Enabled (NewScarfEventLogger env endpoint tos) = false
    ∧ (∀ (w : World) (props : Option (List (String × GoValue))),
        (LogEvent (NewScarfEventLogger env endpoint tos) w props).outcome = Outcome.disabled
        ∧ (LogEvent (NewScarfEventLogger env endpoint tos) w props).request = none)
    ∧ (∀ (w : World) (props : Option (List (String × GoValue))) (t : Int),
        (LogEventWithTimeout (NewScarfEventLogger env endpoint tos) w props t).outcome
          = Outcome.disabled
        ∧ (LogEventWithTimeout (NewScarfEventLogger env endpoint tos) w props t).request
          = none) := by
  have hd : (NewScarfEventLogger env endpoint tos).disabled = true := by
    rcases h with h | h <;> simp [NewScarfEventLogger, h]
  refine ⟨?_, ?_, ?_⟩
  · simp [Enabled, hd]
  · intro w props
    unfold LogEvent
    exact ⟨(lei_disabled _ w props _ hd).1, (lei_disabled _ w props _ hd).2.1⟩
  · intro w props t
    unfold LogEventWithTimeout
    exact ⟨(lei_disabled _ w props _ hd).1, (lei_disabled _ w props _ hd).2.1⟩

/-- C1 witness: with DO_NOT_TRACK = "1" the logger is disabled, LogEvent
returns Disabled, and LogEventWithTimeout dispatches nothing. -/
theorem c1_optout_disables_witness :
    Enabled (NewScarfEventLogger envDNT "https://example.com" []) = false
    ∧ (LogEvent (NewScarfEventLogger envDNT "https://example.com" []) okWorld
        (some [("event", GoValue.str "test")])).outcome = Outcome.disabled
    ∧ (LogEventWithTimeout (NewScarfEventLogger envDNT "https://example.com" []) okWorld
        (some [("event", GoValue.str "test")]) 5).request = none := by
  have h := c1_optout_disables envDNT "https://example.com" [] (Or.inl (by decide))
  exact ⟨h.1, (h.2.1 okWorld (some [("event", GoValue.str "test")])).1,
    (h.2.2 okWorld (some [("event", GoValue.str "test")]) 5).2⟩

/-- C2 counterexample: with DO_NOT_TRACK set to " TRUE " the constructed
logger is disabled, yet neither opt-out variable's raw value
case-insensitively matches one of the literals 1, true, yes, on — the
claim's if-and-only-if fails because the code trims whitespace first. -/
theorem c2_matching_counterexample :
    (NewScarfEventLogger envPadded "https://example.com" []).disabled = true
    ∧ specTrueLike (envPadded "DO_NOT_TRACK") = false
    ∧ specTrueLike (envPadded "SCARF_NO_ANALYTICS") = false := by
  refine ⟨?_, ?_, ?_⟩ <;> decide

/-- C2 (amended): the disabled flag is true iff at least one opt-out
variable, after whitespace trimming, case-insensitively matches one of the
literals 1, true, yes, on; Enabled() is true when both signals are
false-like; and the same rule governs the verbose flag. -/
theorem c2_trimmed_matching (env : Env) (endpoint : String) (tos : List Int) :
    ((NewScarfEventLogger env endpoint tos).disabled
      = (trueLikeTrimmed (env "DO_NOT_TRACK") || trueLikeTrimmed (env "SCARF_NO_ANALYTICS")))
    ∧ ((NewScarfEventLogger env endpoint tos).verbose = trueLikeTrimmed (env "SCARF_VERBOSE"))
    ∧ (trueLikeTrimmed (env "DO_NOT_TRACK") = false →
        trueLikeTrimmed (env "SCARF_NO_ANALYTICS") = false →
        Enabled (NewScarfEventLogger env endpoint tos) = true) := by
  refine ⟨?_, ?_, ?_⟩
  · show (envBool env "DO_NOT_TRACK" || envBool env "SCARF_NO_ANALYTICS") = _
    rw [envBool_eq_trim, envBool_eq_trim]
  · exact envBool_eq_trim env "SCARF_VERBOSE"
  · intro ha hb
    show (!(envBool env "DO_NOT_TRACK" || envBool env "SCARF_NO_ANALYTICS")) = true
    rw [envBool_eq_trim, envBool_eq_trim, ha, hb]
    rfl

/-- C2 witness: with every variable unset the logger is enabled. -/
theorem c2_trimmed_matching_witness :
    Enabled (NewScarfEventLogger envEmpty "https://example.com" []) = true :=
  (c2_trimmed_matching envEmpty "https://example.com" []).2.2 (by decide) (by decide)

/-- C3: strings pass through verbatim; stringer values render via their
textual representation; other values use their JSON form, with surrounding
double quotes stripped from quoted scalars (numbers stay 42, booleans stay
true, arrays and objects keep their brackets and braces); a marshalling
failure falls back to the default textual conversion and never fails the
call (the embedding of stringifyParam is total). -/
theorem c3_stringify :
    (∀ s : String, stringifyParam (GoValue.str s) = s)
    ∧ (∀ r : String, stringifyParam (GoValue.stringer r) = r)
    ∧ (∀ sp : String, stringifyParam (GoValue.other (some "42") sp) = "42")
    ∧ (∀ sp : String, stringifyParam (GoValue.other (some "true") sp) = "true")
    ∧ (∀ sp : String, stringifyParam (GoValue.other (some "\"hello\"") sp) = "hello")
    ∧ (∀ sp : String, stringifyParam (GoValue.other (some "[1,2,3]") sp) = "[1,2,3]")
    ∧ (∀ sp : String,
        stringifyParam (GoValue.other (some "\x7b\"a\":\"b\"\x7d") sp) = "\x7b\"a\":\"b\"\x7d")
    ∧ (∀ sp : String, stringifyParam (GoValue.other none sp) = sp)
    ∧ (∀ jq sp : String, 2 ≤ jq.length → jq.front = '"' → jq.back = '"' →
        stringifyParam (GoValue.other (some jq) sp) = (jq.drop 1).dropRight 1) := by
  refine ⟨fun s => rfl, fun r => rfl, ?_, ?_, ?_, ?_, ?_, fun sp => rfl, ?_⟩
  · intro sp
    simp only [stringifyParam]
    rw [if_neg (by decide)]
  · intro sp
    simp only [stringifyParam]
    rw [if_neg (by decide)]
  · intro sp
    simp only [stringifyParam]
    rw [if_pos (by decide)]
    decide
  · intro sp
    simp only [stringifyParam]
    rw [if_neg (by decide)]
  · intro sp
    simp only [stringifyParam]
    rw [if_neg (by decide)]
  · intro jq sp h1 h2 h3
    simp only [stringifyParam]
    rw [if_pos ⟨h1, h2, h3⟩]

/-- C3 witness: the general quote-stripping clause applied at a concrete
quoted scalar. -/
theorem c3_stringify_witness :
    stringifyParam (GoValue.other (some "\"hi\"") "fallback") = "hi" :=
  (c3_stringify.2.2.2.2.2.2.2.2 "\"hi\"" "fallback" (by decide) (by decide)
    (by decide)).trans (by decide)

/-- C4: a non-positive timeout override makes LogEventWithTimeout behave
identically to LogEvent with the same mapping (the call result, including
the dispatched request's effective timeout, is the very same), and no
override ever mutates the stored configuration. -/
theorem c4_nonpositive_timeout (s : ScarfEventLogger) (w : World)
    (props : Option (List (String × GoValue))) (t : Int) (h : t ≤ 0) :
    LogEventWithTimeout s w props t = LogEvent s w props
    ∧ (∀ t2 : Int, (LogEventWithTimeout s w props t2).post = s) := by
  constructor
  · unfold LogEventWithTimeout LogEvent
    rw [if_pos h]
  · intro t2
    unfold LogEventWithTimeout
    exact lei_post s w props _

/-- C4 witness: a zero override at a concrete logger and world. -/
theorem c4_nonpositive_timeout_witness :
    LogEventWithTimeout cs okWorld (some [("event", GoValue.str "ok")]) 0
      = LogEvent cs okWorld (some [("event", GoValue.str "ok")]) :=
  (c4_nonpositive_timeout cs okWorld (some [("event", GoValue.str "ok")]) 0
    (by decide)).1

/-- C5: whenever the dispatch produces a response, the call returns Success
(the nil error) iff the status code lies in [200,300), and otherwise
returns the NonSuccessStatus outcome carrying the response status. -/
theorem c5_status_classification (s : ScarfEventLogger) (w : World)
    (props : Option (List (String × GoValue))) (t : Int) (u : URLParts) (resp : Response)
    (hd : s.disabled = false) (he : goTrimSpace s.endpointURL ≠ "")
    (hp : w.parseURL s.endpointURL = Except.ok u)
    (hb : w.buildRequest (mergeURL u (props.getD [])) = Except.ok ())
    (hs : w.send (mergeURL u (props.getD [])) t = Except.ok resp) :
    ((logEventInternal s w props t).outcome = Outcome.success
      ↔ (200 ≤ resp.statusCode ∧ resp.statusCode < 300))
    ∧ (¬(200 ≤ resp.statusCode ∧ resp.statusCode < 300) →
        (logEventInternal s w props t).outcome = Outcome.nonSuccessStatus resp.status) := by
  have hr := lei_response s w props t u resp hd he hp hb hs
  constructor
  · by_cases hst : 200 ≤ resp.statusCode ∧ resp.statusCode < 300
    · rw [hr.1, if_pos hst]
      exact ⟨fun _ => hst, fun _ => rfl⟩
    · rw [hr.1, if_neg hst]
      exact ⟨fun hc => Outcome.noConfusion hc, fun hc => absurd hc hst⟩
  · intro hnst
    rw [hr.1, if_neg hnst]

/-- C5 witness: a 500 response yields the NonSuccessStatus outcome carrying
the status text. -/
theorem c5_status_classification_witness :
    (logEventInternal cs world500 (some []) 7).outcome
      = Outcome.nonSuccessStatus "500 Internal Server Error" :=
  (c5_status_classification cs world500 (some []) 7 cU resp500 (by decide) (by decide)
    rfl rfl rfl).2 (by decide)

/-- C6: the outcomes are decided in the precedence order
Disabled, MissingEndpoint, InvalidEndpoint, RequestBuildFailed,
RequestFailed, NonSuccessStatus/Success (mutually exclusive Outcome
constructors); a disabled logger returns Disabled whatever its endpoint,
and an empty or all-whitespace endpoint on an enabled logger returns
MissingEndpoint with nothing dispatched, whatever the parser or network
would do. -/
theorem c6_outcome_precedence (s : ScarfEventLogger) (w : World)
    (props : Option (List (String × GoValue))) (t : Int) :
    (s.disabled = true →
        (logEventInternal s w props t).outcome = Outcome.disabled
        ∧ (logEventInternal s w props t).request = none)
    ∧ (s.disabled = false → goTrimSpace s.endpointURL = "" →
        (logEventInternal s w props t).outcome = Outcome.missingEndpoint
        ∧ (logEventInternal s w props t).request = none)
    ∧ (∀ e : String, s.disabled = false → goTrimSpace s.endpointURL ≠ "" →
        w.parseURL s.endpointURL = Except.error e →
        (logEventInternal s w props t).outcome = Outcome.invalidEndpoint e
        ∧ (logEventInternal s w props t).request = none)
    ∧ (∀ (u : URLParts) (e : String), s.disabled = false → goTrimSpace s.endpointURL ≠ "" →
        w.parseURL s.endpointURL = Except.ok u →
        w.buildRequest (mergeURL u (props.getD [])) = Except.error e →
        (logEventInternal s w props t).outcome = Outcome.requestBuildFailed e
        ∧ (logEventInternal s w props t).request = none)
    ∧ (∀ (u : URLParts) (e : String), s.disabled = false → goTrimSpace s.endpointURL ≠ "" →
        w.parseURL s.endpointURL = Except.ok u →
        w.buildRequest (mergeURL u (props.getD [])) = Except.ok () →
        w.send (mergeURL u (props.getD [])) t = Except.error e →
        (logEventInternal s w props t).outcome = Outcome.requestFailed e)
    ∧ (∀ (u : URLParts) (resp : Response), s.disabled = false →
        goTrimSpace s.endpointURL ≠ "" →
        w.parseURL s.endpointURL = Except.ok u →
        w.buildRequest (mergeURL u (props.getD [])) = Except.ok () →
        w.send (mergeURL u (props.getD [])) t = Except.ok resp →
        200 ≤ resp.statusCode ∧ resp.statusCode < 300 →
        (logEventInternal s w props t).outcome = Outcome.success)
    ∧ (∀ (u : URLParts) (resp : Response), s.disabled = false →
        goTrimSpace s.endpointURL ≠ "" →
        w.parseURL s.endpointURL = Except.ok u →
        w.buildRequest (mergeURL u (props.getD [])) = Except.ok () →
        w.send (mergeURL u (props.getD [])) t = Except.ok resp →
        ¬(200 ≤ resp.statusCode ∧ resp.statusCode < 300) →
        (logEventInternal s w props t).outcome = Outcome.nonSuccessStatus resp.status) := by
  refine ⟨?_, ?_, ?_, ?_, ?_, ?_, ?_⟩
  · intro hd
    exact ⟨(lei_disabled s w props t hd).1, (lei_disabled s w props t hd).2.1⟩
  · intro hd he
    exact ⟨(lei_missing s w props t hd he).1, (lei_missing s w props t hd he).2.1⟩
  · intro e hd he hp
    exact ⟨(lei_parseError s w props t e hd he hp).1,
      (lei_parseError s w props t e hd he hp).2.1⟩
  · intro u e hd he hp hb
    exact ⟨(lei_buildError s w props t u e hd he hp hb).1,
      (lei_buildError s w props t u e hd he hp hb).2.1⟩
  · intro u e hd he hp hb hs
    exact (lei_sendError s w props t u e hd he hp hb hs).1
  · intro u resp hd he hp hb hs hst
    rw [(lei_response s w props t u resp hd he hp hb hs).1, if_pos hst]
  · intro u resp hd he hp hb hs hst
    rw [(lei_response s w props t u resp hd he hp hb hs).1, if_neg hst]

/-- C6 witness: a disabled logger with an empty endpoint still returns
Disabled, and an enabled logger with an empty endpoint returns
MissingEndpoint without dispatching. -/
theorem c6_outcome_precedence_witness :
    (logEventInternal (NewScarfEventLogger envDNT "" []) okWorld (some []) 3).outcome
      = Outcome.disabled
    ∧ (logEventInternal csEmpty okWorld (some []) 3).outcome = Outcome.missingEndpoint
    ∧ (logEventInternal csEmpty okWorld (some []) 3).request = none := by
  have h1 := (c6_outcome_precedence (NewScarfEventLogger envDNT "" []) okWorld
    (some []) 3).1 (by decide)
  have h2 := (c6_outcome_precedence csEmpty okWorld (some []) 3).2.1 (by decide) (by decide)
  exact ⟨h1.1, h2.1, h2.2⟩

/-- C7: building the final URI preserves everything outside the query
string, keeps the base endpoint's own query parameters, and merges the
stringified properties in, with a property key overwriting a colliding
base parameter (keys unique, as in a Go map). -/
theorem c7_query_merge (u : URLParts) (props : List (String × GoValue))
    (hnd : (props.map Prod.fst).Nodup) :
    (mergeURL u props).pre = u.pre
    ∧ (∀ (k : String) (v : GoValue), (k, v) ∈ props →
        Values.get (mergeURL u props).query k = some (stringifyParam v))
    ∧ (∀ k : String, k ∉ props.map Prod.fst →
        Values.get (mergeURL u props).query k = Values.get u.query k) :=
  ⟨rfl, fun k v hm => mergeURL_get_mem props k v hnd hm u,
    fun k hk => mergeURL_get_absent props k hk u⟩

/-- C7 witness: at a base URL with its own path and query, a colliding key
is overwritten by the property value, a non-colliding base parameter
survives, and the part outside the query is unchanged. -/
theorem c7_query_merge_witness :
    (mergeURL u0 props0).pre = u0.pre
    ∧ Values.get (mergeURL u0 props0).query "a" = some "new"
    ∧ Values.get (mergeURL u0 props0).query "keep" = some "base" := by
  have h := c7_query_merge u0 props0 (by decide)
  refine ⟨h.1, ?_, ?_⟩
  · exact h.2.1 "a" (GoValue.str "new") (by decide)
  · exact (h.2.2 "keep" (by decide)).trans (by decide)

/-- C8: no call mutates the logger: the post-call state equals the stored
configuration field for field (in particular the shared client's timeout),
and the timeout actually applied to the dispatched request is the per-call
effective one, taken from the per-call client copy. -/
theorem c8_no_mutation (s : ScarfEventLogger) (w : World)
    (props : Option (List (String × GoValue))) (t : Int) :
    (LogEvent s w props).post = s
    ∧ (LogEventWithTimeout s w props t).post = s
    ∧ (logEventInternal s w props t).post.httpClient.timeout = s.httpClient.timeout
    ∧ (∀ p : URLParts × Int, (logEventInternal s w props t).request = some p → p.2 = t) := by
  refine ⟨?_, ?_, ?_, ?_⟩
  · unfold LogEvent
    exact lei_post s w props _
  · unfold LogEventWithTimeout
    exact lei_post s w props _
  · rw [lei_post s w props t]
  · intro p hp
    exact lei_request_timeout s w props t p hp

/-- C8 witness: at a concrete enabled logger, LogEvent leaves the logger
untouched, and the request dispatched with the override 7 carries 7. -/
theorem c8_no_mutation_witness :
    (LogEvent cs okWorld (some [])).post = cs ∧ cPair.2 = (7 : Int) :=
  ⟨(c8_no_mutation cs okWorld (some []) 7).1,
    (c8_no_mutation cs okWorld (some []) 7).2.2.2 cPair (by decide)⟩

/-- C9: the returned outcome (and the dispatched request) is the same
whether the verbose flag is true or false, for every configuration, world,
property mapping, and timeout — diagnostics never influence control flow. -/
theorem c9_verbose_noninterference (s : ScarfEventLogger) (w : World)
    (props : Option (List (String × GoValue))) (t : Int) :
    (logEventInternal { s with verbose := true } w props t).outcome
      = (logEventInternal { s with verbose := false } w props t).outcome
    ∧ (logEventInternal { s with verbose := true } w props t).request
      = (logEventInternal { s with verbose := false } w props t).request
    ∧ (LogEvent { s with verbose := true } w props).outcome
      = (LogEvent { s with verbose := false } w props).outcome
    ∧ (LogEventWithTimeout { s with verbose := true } w props t).outcome
      = (LogEventWithTimeout { s with verbose := false } w props t).outcome :=
  ⟨(lei_verbose_invariant s w props t).1, (lei_verbose_invariant s w props t).2,
    (lei_verbose_invariant s w props s.defaultTimeout).1,
    (lei_verbose_invariant s w props (if t ≤ 0 then s.defaultTimeout else t)).1⟩

/-- C10: environment values are whitespace-trimmed before the true-like
match: envBool agrees everywhere with the trimmed spec predicate, a
recognized literal surrounded by whitespace counts as true-like, and a
whitespace-only value counts as false-like. -/
theorem c10_env_trimming :
    (∀ (env : Env) (key : String), envBool env key = trueLikeTrimmed (env key))
    ∧ envBool envPadded "DO_NOT_TRACK" = true
    ∧ envBool envSpaces "DO_NOT_TRACK" = false :=
  ⟨envBool_eq_trim, by decide, by decide⟩

end Scarf
